import Mathlib

/-!
Verification of the Inhotel integration gateway against its specification.

Shallow embedding of the request-path logic of the repository:
the JWT auth middleware (jwt_auth.rs), the passthrough handler and its
fan-out task (passthrough.rs), connection variable mapping CRUD
(connection_variable_mapping.rs), the CMD batch update engine and the
test-connection handler (connection_model_definition.rs).
-/

namespace Gateway

/-- Opaque record identifier: the string form of the typed Id. -/
abbrev Id := String

/-- Typed application errors mirroring PicaError: the ApplicationError and
InternalError variants used by the embedded handlers, each carrying its
message. -/
inductive PicaErr where
  | unauthorized (msg : String)
  | forbidden (msg : String)
  | badRequest (msg : String)
  | notFound (msg : String)
  | conflict (msg : String)
  | scriptError (msg : String)
  | serializeError (msg : String)
  | unknownErr (msg : String)
deriving DecidableEq, Repr

/-- Recognizer for the unauthorized (401) error class. -/
def PicaErr.isUnauthorized : PicaErr → Bool
  | .unauthorized _ => true
  | _ => false

/-- Recognizer for the forbidden (403) error class. -/
def PicaErr.isForbidden : PicaErr → Bool
  | .forbidden _ => true
  | _ => false

/-! ## JWT auth middleware (src/api/src/middleware/jwt_auth.rs) -/

/-- PartialClaims: minimal claims struct for peeking at isBuildableCore and
buildableId without full validation. -/
structure PartialClaims where
  is_buildable_core : Bool
  buildable_id : Option String
deriving DecidableEq, Repr

/-- Modelled from the spec: the full validated Claims object (the Rust Claims
struct lives outside src); it carries buildableId, the service-token flag and
tenant ownership. -/
structure Claims where
  buildable_id : String
  is_buildable_core : Bool
  owner_buildable_id : String
deriving DecidableEq, Repr

/-- Configuration slice read by the middleware: the two signing secrets. -/
structure AuthConfig where
  jwt_secret : String
  buildable_secret : String
deriving DecidableEq, Repr

/-- JwtState: precomputed decoding key for core tokens and the base JWT secret
for user tokens. Keys are modelled as the byte strings fed to
DecodingKey::from_secret. -/
structure JwtState where
  core_decoding_key : String
  base_jwt_secret : String
deriving DecidableEq, Repr

/-- JwtState::from_state: the core secret is BUILDABLE_SECRET followed by
JWT_SECRET; the base secret is JWT_SECRET. -/
def JwtState.from_state (cfg : AuthConfig) : JwtState :=
  { core_decoding_key := cfg.buildable_secret ++ cfg.jwt_secret
    base_jwt_secret := cfg.jwt_secret }

/-- Shallow model of a bearer JWT. The peek decode (signature validation
disabled) either yields PartialClaims or fails; full validation is a function
of the decoding key, yielding the validated Claims exactly for keys under
which signature and exp, nbf, aud, iss checks all pass. -/
structure Token where
  peek : Option PartialClaims
  verify : String → Option Claims

/-- JwtState::get_decoding_key: peek the claims without signature
verification, then choose the decoding key by token class; a user token
without buildableId is rejected as unauthorized. -/
def JwtState.get_decoding_key (st : JwtState) (token : Token) :
    Except PicaErr String :=
  match token.peek with
  | none => .error (.unauthorized "Invalid token format")
  | some claims =>
    if claims.is_buildable_core then
      .ok st.core_decoding_key
    else
      match claims.buildable_id with
      | none => .error (.unauthorized "Invalid token: missing buildableId")
      | some bid => .ok (st.base_jwt_secret ++ bid)

/-- Authorization header as received by the middleware: possibly absent at the
call site, otherwise non-UTF8 bytes, a value without the Bearer scheme, or a
bearer token. -/
inductive AuthHeaderVal where
  | invalidBytes
  | nonBearer (s : String)
  | bearer (t : Token)

/-- jwt_auth_middleware: unauthorized when the header is missing, unreadable
or non-Bearer, or when key selection fails; forbidden when full validation
with the selected key fails; on success the validated claims are attached to
the request (returned). -/
def jwt_auth_middleware (st : JwtState) (auth_header : Option AuthHeaderVal) :
    Except PicaErr Claims :=
  match auth_header with
  | none => .error (.unauthorized "You are not authorized to access this resource")
  | some .invalidBytes =>
    .error (.unauthorized "You are not authorized to access this resource")
  | some (.nonBearer _) =>
    .error (.unauthorized "You are not authorized to access this resource")
  | some (.bearer token) =>
    match st.get_decoding_key token with
    | .error e => .error e
    | .ok key =>
      match token.verify key with
      | some claims => .ok claims
      | none => .error (.forbidden "You are not authorized to access this resource")

/-- Key selection exactly as claim C1 words it, for refinement comparison:
core tokens use BUILDABLE_SECRET followed by JWT_SECRET, user tokens with a
non-empty buildableId use JWT_SECRET followed by buildableId, and otherwise
JWT_SECRET alone. -/
def claimed_decoding_key (cfg : AuthConfig) (claims : PartialClaims) : String :=
  if claims.is_buildable_core then cfg.buildable_secret ++ cfg.jwt_secret
  else
    match claims.buildable_id with
    | some bid => if bid = "" then cfg.jwt_secret else cfg.jwt_secret ++ bid
    | none => cfg.jwt_secret

/-- C1 counterexample: a peekable user token with no buildableId at all is
rejected as unauthorized; the code never falls back to JWT_SECRET alone, so
the claimed key selection function disagrees with the code there. -/
theorem C1_counterexample :
    (JwtState.from_state ⟨"jwtsecret", "bsecret"⟩).get_decoding_key
        { peek := some ⟨false, none⟩, verify := fun _ => none }
      ≠ Except.ok (claimed_decoding_key ⟨"jwtsecret", "bsecret"⟩ ⟨false, none⟩) := by
  intro h
  simp only [JwtState.get_decoding_key, JwtState.from_state] at h
  exact Except.noConfusion h

/-- C1 (amended): for every bearer JWT whose claims can be peeked, the key is
chosen by token class: isBuildableCore true gives BUILDABLE_SECRET followed by
JWT_SECRET; otherwise a present buildableId (empty included, which degenerates
to JWT_SECRET alone) gives JWT_SECRET followed by buildableId; with no
buildableId the middleware rejects the token as unauthorized and derives no
key. -/
theorem C1_key_selection (cfg : AuthConfig) (t : Token) (c : PartialClaims)
    (hpeek : t.peek = some c) :
    (c.is_buildable_core = true →
      (JwtState.from_state cfg).get_decoding_key t =
        .ok (cfg.buildable_secret ++ cfg.jwt_secret)) ∧
    (∀ bid, c.is_buildable_core = false → c.buildable_id = some bid →
      (JwtState.from_state cfg).get_decoding_key t = .ok (cfg.jwt_secret ++ bid)) ∧
    (c.is_buildable_core = false → c.buildable_id = none →
      (JwtState.from_state cfg).get_decoding_key t =
        .error (.unauthorized "Invalid token: missing buildableId")) := by
  unfold JwtState.get_decoding_key JwtState.from_state
  rw [hpeek]
  refine ⟨?_, ?_, ?_⟩
  · intro hcore; simp [hcore]
  · intro bid hcore hbid; simp [hcore, hbid]
  · intro hcore hbid; simp [hcore, hbid]

/-- C1 witness: a concrete core token receives the concatenated core key. -/
theorem C1_key_selection_witness :
    (JwtState.from_state ⟨"jwt", "core"⟩).get_decoding_key
        { peek := some ⟨true, some "b1"⟩, verify := fun _ => none } =
      .ok ("core" ++ "jwt") :=
  (C1_key_selection ⟨"jwt", "core"⟩
      { peek := some ⟨true, some "b1"⟩, verify := fun _ => none }
      ⟨true, some "b1"⟩ rfl).1 rfl

/-- C2: the middleware fails unauthorized when the Authorization header is
missing, unreadable or non-Bearer, or when the token cannot be peeked; it
fails forbidden when a decoding key is derived but full verification with it
fails; on success the validated claims object is attached (returned). -/
theorem C2_auth_outcomes (st : JwtState) (h : Option AuthHeaderVal) :
    (h = none → ∃ m, jwt_auth_middleware st h = .error (.unauthorized m)) ∧
    (h = some .invalidBytes →
      ∃ m, jwt_auth_middleware st h = .error (.unauthorized m)) ∧
    (∀ s, h = some (.nonBearer s) →
      ∃ m, jwt_auth_middleware st h = .error (.unauthorized m)) ∧
    (∀ t, h = some (.bearer t) → t.peek = none →
      ∃ m, jwt_auth_middleware st h = .error (.unauthorized m)) ∧
    (∀ t key, h = some (.bearer t) → st.get_decoding_key t = .ok key →
      t.verify key = none →
      ∃ m, jwt_auth_middleware st h = .error (.forbidden m)) ∧
    (∀ t key claims, h = some (.bearer t) → st.get_decoding_key t = .ok key →
      t.verify key = some claims → jwt_auth_middleware st h = .ok claims) := by
  refine ⟨?_, ?_, ?_, ?_, ?_, ?_⟩
  · rintro rfl; exact ⟨_, rfl⟩
  · rintro rfl; exact ⟨_, rfl⟩
  · rintro s rfl; exact ⟨_, rfl⟩
  · rintro t rfl hpeek
    refine ⟨"Invalid token format", ?_⟩
    simp [jwt_auth_middleware, JwtState.get_decoding_key, hpeek]
  · rintro t key rfl hkey hver
    refine ⟨"You are not authorized to access this resource", ?_⟩
    simp [jwt_auth_middleware, hkey, hver]
  · rintro t key claims rfl hkey hver
    simp [jwt_auth_middleware, hkey, hver]

/-- C2 witness: a concrete user token that verifies under the derived key
yields the attached claims. -/
theorem C2_auth_outcomes_witness :
    jwt_auth_middleware ⟨"corejwt", "jwt"⟩
        (some (.bearer
          { peek := some ⟨false, some "b1"⟩
            verify := fun k => if k = "jwtb1" then some ⟨"b1", false, "b1"⟩ else none })) =
      .ok ⟨"b1", false, "b1"⟩ :=
  (C2_auth_outcomes ⟨"corejwt", "jwt"⟩ _).2.2.2.2.2
    { peek := some ⟨false, some "b1"⟩
      verify := fun k => if k = "jwtb1" then some ⟨"b1", false, "b1"⟩ else none }
    "jwtb1" ⟨"b1", false, "b1"⟩ rfl rfl (by simp)

/-! ## Data model (osentities; spec section 3) -/

/-- Modelled from the spec: opaque payload whose internal structure no claim
touches (auth method tags, schema and sample blobs, JSON values, semver). -/
structure OpaqueVal where
  raw : String
deriving DecidableEq, Repr

/-- Auth method tag; treated as a black-box strategy object. -/
abbrev AuthMethod := OpaqueVal
/-- Schemas blob of the Api transport config. -/
abbrev SchemasInput := OpaqueVal
/-- Samples blob of the Api transport config. -/
abbrev SamplesInput := OpaqueVal
/-- Response extractor description of the Api transport config. -/
abbrev ResponseBody := OpaqueVal
/-- Model paths blob of the Api transport config. -/
abbrev ModelPaths := OpaqueVal
/-- CRUD payload re-shaping mapping. -/
abbrev CrudMapping := OpaqueVal
/-- Extractor configuration blob. -/
abbrev ExtractorConfig := OpaqueVal
/-- Dynamically typed JSON value, kept opaque. -/
abbrev JsonVal := OpaqueVal

/-- TestConnectionState: tagged success or failure outcome of a test
dispatch, carrying the upstream textual body and the serialized request. -/
inductive TestConnectionState where
  | success (response : String) (request_payload : String)
  | failure (message : String) (request_payload : String)
deriving DecidableEq, Repr

/-- TestConnection: the persisted test outcome with its timestamp. -/
structure TestConnection where
  last_tested_at : Int
  state : TestConnectionState
deriving DecidableEq, Repr

/-- Modelled from the spec: shared record metadata with the soft-delete flag,
active flag, audit timestamps, tags and the semver version (the Rust
RecordMetadata struct lives outside src). -/
structure RecordMetadata where
  created_at : Int
  updated_at : Int
  updated : Bool
  active : Bool
  deleted : Bool
  tags : List String
  version : String
deriving DecidableEq, Repr

/-- Modelled from the spec: freshly initialised record metadata; new records
are not soft-deleted and not yet updated. -/
def RecordMetadata.init : RecordMetadata :=
  { created_at := 0, updated_at := 0, updated := false, active := true
    deleted := false, tags := [], version := "1.0.0" }

/-- ApiModelConfig: the Api transport variant of a CMD. Headers and query
params are association lists; method strings are kept as displayed. -/
structure ApiModelConfig where
  base_url : String
  path : String
  content : OpaqueVal
  auth_method : AuthMethod
  headers : Option (List (String × String))
  query_params : Option (List (String × String))
  schemas : SchemasInput
  samples : SamplesInput
  responses : List ResponseBody
  paths : Option ModelPaths
deriving DecidableEq, Repr

/-- PlatformInfo: tagged transport variant; only Api is covered by the spec,
the update engine treats any other variant as having no Api config. -/
inductive PlatformInfo where
  | api (config : ApiModelConfig)
  | other (v : OpaqueVal)
deriving DecidableEq, Repr

/-- Modelled from the spec: the ConnectionModelDefinition record as
constructed and persisted by the API layer (the entity declaration lives
outside src; fields follow CreateRequest::from and the spec data model).
The action field holds the HTTP method string, action_name the displayed
CRUD verb, and ownership the tenant id injected by the store filter
helper. -/
structure ConnectionModelDefinition where
  id : Id
  connection_platform : String
  connection_definition_id : Id
  platform_version : String
  key : String
  title : String
  name : String
  model_name : String
  platform_info : PlatformInfo
  action : String
  action_name : String
  extractor_config : Option ExtractorConfig
  test_connection_status : TestConnection
  test_connection_payload : Option JsonVal
  is_default_crud_mapping : Option Bool
  mapping : Option CrudMapping
  record_metadata : RecordMetadata
  supported : Bool
  knowledge : Option String
  ownership : Option String
deriving DecidableEq, Repr

/-- Path of the Api config, or the empty string for a non-Api transport;
matches the path_val fallback in update_many. -/
def ConnectionModelDefinition.api_path (r : ConnectionModelDefinition) : String :=
  match r.platform_info with
  | .api config => config.path
  | .other _ => ""

/-- ASCII lowercase of one character; models the effect of to_lowercase on
the key inputs occurring here. -/
def asciiLowerChar (c : Char) : Char :=
  if 'A' ≤ c && c ≤ 'Z' then Char.ofNat (c.toNat + 32) else c

/-- ASCII lowercase of a string; models to_lowercase on CMD key inputs. -/
def asciiLower (s : String) : String := ⟨s.data.map asciiLowerChar⟩

/-- Derived CMD key: lowercase of the six named fields joined with the api
marker, exactly the format string used in connection_model_definition.rs. -/
def cmd_key_format (cp pv mn an path name : String) : String :=
  asciiLower ("api::" ++ cp ++ "::" ++ pv ++ "::" ++ mn ++ "::" ++ an
    ++ "::" ++ path ++ "::" ++ name)

/-- Key recomputed from a stored record, the pure function of the record the
spec invariant speaks about. -/
def cmd_key_of (r : ConnectionModelDefinition) : String :=
  cmd_key_format r.connection_platform r.platform_version r.model_name
    r.action_name r.api_path r.name

/-- Ownership block: the tenant id (buildableId). -/
structure Ownership where
  id : String
deriving DecidableEq, Repr

/-- Modelled from the spec: EventAccess, the validated claims plus tenant
ownership and environment derived from the JWT. -/
structure EventAccess where
  ownership : Ownership
  environment : String
deriving DecidableEq, Repr

/-- Modelled from the spec: a Connection record, the tenant-owned credential
binding. -/
structure Connection where
  id : Id
  key : String
  platform : String
  platform_version : String
  secrets_service_id : String
  owner_buildable_id : String
  environment : String
  deleted : Bool
deriving DecidableEq, Repr

/-! ## Passthrough handler and fan-out (src/api/src/logic/passthrough.rs) -/

/-- Canonical lowercase name of the Content-Length header. -/
def CONTENT_LENGTH : String := "content-length"

/-- Modelled from the spec: the passthrough response header marker from
osentities, the prefix before the dash. -/
def PICA_PASSTHROUGH_HEADER : String := "pica-passthrough"

/-- HeaderMap::insert semantics: all values previously associated with the
name are dropped and the single new pair is stored. Header names are kept in
their canonical lowercase form. -/
def insert_header (hs : List (String × String)) (name val : String) :
    List (String × String) :=
  hs.filter (fun p => !(p.1 == name)) ++ [(name, val)]

/-- One step of the response header rewrite loop: Content-Length is forwarded
verbatim, every other upstream header is re-inserted under the passthrough
marker prefix. -/
def rewrite_step (acc : List (String × String)) (kv : String × String) :
    List (String × String) :=
  if kv.1 == CONTENT_LENGTH then insert_header acc CONTENT_LENGTH kv.2
  else insert_header acc (PICA_PASSTHROUGH_HEADER ++ "-" ++ kv.1) kv.2

/-- Caller-facing response headers built from the upstream headers, starting
from an empty map, exactly as the for_each loop in passthrough_request. -/
def rewrite_headers (upstream : List (String × String)) :
    List (String × String) :=
  upstream.foldl rewrite_step []

/-- StatusCode::is_success: the 2xx class. -/
def isSuccessCode (status : Nat) : Bool :=
  200 ≤ status && status ≤ 299

/-- Modelled from the spec: get_connection resolves the connection by key
under tenant scope with the filter key, ownership.buildableId and deleted
false, failing with not_found when no row matches (the helper lives outside
src). -/
def get_connection (access : EventAccess) (connection_key : String)
    (connections : List Connection) : Except PicaErr Connection :=
  match connections.find? (fun c => c.key == connection_key
      && c.owner_buildable_id == access.ownership.id && !c.deleted) with
  | some c => .ok c
  | none => .error (.notFound "Connection not found")

/-- Upstream execution outcome surfaced by the dispatcher handle: status
code, response headers and the body bytes; a failing bytes read is none. -/
structure ExecResult where
  status : Nat
  headers : List (String × String)
  body : Option String
deriving DecidableEq, Repr

/-- Inputs of one passthrough invocation: the caller identity, routing
headers, request data, the connection store and the dispatcher outcome. -/
structure PassthroughEnv where
  access : EventAccess
  connection_header : Option String
  auth_header : Option String
  id_header : Option String
  uri_path : String
  method : String
  query_params : List (String × String)
  connections : List Connection
  dispatch : Except PicaErr ExecResult

/-- Steps of the passthrough handler in the order the source performs them;
spawnAuditTask marks the spawn of the detached fan-out task and sendMetric
the awaited send on the metric channel. -/
inductive PassthroughStep where
  | resolveConnection
  | dispatchRequest
  | rewriteHeaders
  | spawnAuditTask
  | sendMetric
  | readBody
  | respond
deriving DecidableEq, Repr

/-- Caller-facing passthrough response. -/
structure PassthroughResponse where
  status : Nat
  headers : List (String × String)
  body : String
deriving DecidableEq, Repr

/-- passthrough_request: header checks, connection resolution, dispatch,
response header rewrite, fan-out spawn, metric send, body read and response,
paired with the ordered trace of the steps actually performed. -/
def passthrough_request (env : PassthroughEnv) :
    Except PicaErr PassthroughResponse × List PassthroughStep :=
  match env.connection_header with
  | none => (.error (.badRequest "Connection header not found"), [])
  | some ck =>
    match env.auth_header with
    | none => (.error (.badRequest "Connection header not found"), [])
    | some _ =>
      match get_connection env.access ck env.connections with
      | .error e => (.error e, [.resolveConnection])
      | .ok _conn =>
        match env.dispatch with
        | .error e => (.error e, [.resolveConnection, .dispatchRequest])
        | .ok res =>
          let out_headers := rewrite_headers res.headers
          match res.body with
          | none =>
            (.error (.scriptError "Error retrieving bytes from response"),
              [.resolveConnection, .dispatchRequest, .rewriteHeaders,
                .spawnAuditTask, .sendMetric, .readBody])
          | some b =>
            (.ok ⟨res.status, out_headers, b⟩,
              [.resolveConnection, .dispatchRequest, .rewriteHeaders,
                .spawnAuditTask, .sendMetric, .readBody, .respond])

/-- SparseCMD: the sparse projection fetched by the fan-out task. -/
structure SparseCMD where
  connection_platform : String
  connection_definition_id : Id
  platform_version : String
  key : String
  title : String
  name : String
  path : String
  action : String
  action_name : String
deriving DecidableEq, Repr

/-- Modelled from the spec: the sparse projection of a stored CMD used by
the audit fan-out task; the projected path and action come from the Api
transport fields of the stored document. -/
def sparse_projection (r : ConnectionModelDefinition) : SparseCMD :=
  { connection_platform := r.connection_platform
    connection_definition_id := r.connection_definition_id
    platform_version := r.platform_version
    key := r.key
    title := r.title
    name := r.name
    path := r.api_path
    action := r.action
    action_name := r.action_name }

/-- ASCII uppercase of one character, the effect of to_uppercase on the
method strings occurring here. -/
def asciiUpperChar (c : Char) : Char :=
  if 'a' ≤ c && c ≤ 'z' then Char.ofNat (c.toNat - 32) else c

/-- ASCII uppercase of a string; models to_uppercase on HTTP method names. -/
def asciiUpper (s : String) : String := ⟨s.data.map asciiUpperChar⟩

/-- Mongo query of the fan-out task: by id when the id passthrough header was
present, otherwise by connection platform, path and uppercased method. -/
def fanout_query_matches (connection_platform uri_path method_upper : String)
    (id_str : Option String) (r : ConnectionModelDefinition) : Bool :=
  match id_str with
  | some i => r.id == i
  | none =>
    r.connection_platform == connection_platform && r.api_path == uri_path
      && r.action == method_upper

/-- Audit event assembled by the fan-out task. -/
structure AuditEvent where
  access_key : String
  encrypted_access_key : String
  name : String
  headers : List (String × String)
  body : String
deriving DecidableEq, Repr

/-- Event name computed by the fan-out task: platform, platform version, the
sparse record name and action_name fields joined by double colons, suffixed
by the request outcome. -/
def audit_event_name (connection_platform connection_platform_version : String)
    (cmd : SparseCMD) (status : Nat) : String :=
  let event_name := connection_platform ++ "::" ++ connection_platform_version
      ++ "::" ++ cmd.name ++ "::" ++ cmd.action_name
  if isSuccessCode status then event_name ++ "::request-succeeded"
  else event_name ++ "::request-failed"

/-- Audit event name exactly as claim C8 words it, for refinement comparison:
built from the model_name field of the CMD. -/
def claimed_audit_event_name
    (platform platform_version model_name action_name : String)
    (status : Nat) : String :=
  platform ++ "::" ++ platform_version ++ "::" ++ model_name ++ "::"
    ++ action_name
    ++ (if isSuccessCode status then "::request-succeeded" else "::request-failed")

/-- Fan-out task body: look up the sparse CMD, parse the stripped access key
header with the external parsers (passed as functions, they live outside
src), and assemble the audit event; every failure is silently dropped. The
metadata JSON rendering is opaque to the claims and passed in as a string. -/
def passthrough_fanout (cmds : List ConnectionModelDefinition)
    (connection_platform connection_platform_version : String)
    (id_str : Option String) (uri_path : String) (method : String)
    (connection_secret_header : Option String)
    (parse_encrypted : String → Option String)
    (password_ok : Bool)
    (parse_access_key : String → Option String)
    (metadata_body : String)
    (request_headers : List (String × String))
    (status : Nat) : Option AuditEvent :=
  match cmds.find?
      (fanout_query_matches connection_platform uri_path (asciiUpper method) id_str) with
  | none => none
  | some record =>
    match connection_secret_header with
    | none => none
    | some secret_header =>
      match parse_encrypted secret_header with
      | none => none
      | some encrypted_access_key =>
        if password_ok then
          let cmd := sparse_projection record
          let name := audit_event_name connection_platform
            connection_platform_version cmd status
          match parse_access_key encrypted_access_key with
          | some access_key =>
            some { access_key := access_key
                   encrypted_access_key := encrypted_access_key
                   name := name
                   headers := request_headers
                   body := metadata_body }
          | none => none
        else none

/-- Name under which an upstream header reappears in the caller response. -/
def out_name (k : String) : String :=
  if k == CONTENT_LENGTH then CONTENT_LENGTH
  else PICA_PASSTHROUGH_HEADER ++ "-" ++ k

/-- Pair transformation performed by the rewrite loop. -/
def out_pair (kv : String × String) : String × String :=
  (out_name kv.1, kv.2)

lemma rewrite_step_eq (acc : List (String × String)) (kv : String × String) :
    rewrite_step acc kv = insert_header acc (out_name kv.1) kv.2 := by
  unfold rewrite_step out_name
  by_cases h : kv.1 == CONTENT_LENGTH <;> simp [h]

lemma insert_header_of_not_mem (hs : List (String × String)) (name val : String)
    (h : ∀ p ∈ hs, p.1 ≠ name) :
    insert_header hs name val = hs ++ [(name, val)] := by
  unfold insert_header
  rw [List.filter_eq_self.mpr]
  intro p hp
  simpa using h p hp

lemma out_name_injective : Function.Injective out_name := by
  intro a b h
  unfold out_name at h
  by_cases ha : a == CONTENT_LENGTH <;> by_cases hb : b == CONTENT_LENGTH
  · exact (eq_of_beq ha).trans (eq_of_beq hb).symm
  · exfalso
    rw [if_pos ha, if_neg hb] at h
    have hl := congrArg String.length h
    have h1 : CONTENT_LENGTH.length = 14 := rfl
    have h2 : (PICA_PASSTHROUGH_HEADER ++ "-").length = 17 := rfl
    rw [String.length_append, String.length_append] at hl
    have h3 : PICA_PASSTHROUGH_HEADER.length = 16 := rfl
    have h4 : ("-" : String).length = 1 := rfl
    omega
  · exfalso
    rw [if_neg ha, if_pos hb] at h
    have hl := congrArg String.length h
    have h1 : CONTENT_LENGTH.length = 14 := rfl
    rw [String.length_append, String.length_append] at hl
    have h3 : PICA_PASSTHROUGH_HEADER.length = 16 := rfl
    have h4 : ("-" : String).length = 1 := rfl
    omega
  · rw [if_neg ha, if_neg hb] at h
    have hd := congrArg String.data h
    rw [String.data_append, String.data_append, String.data_append,
      String.data_append] at hd
    exact String.ext (List.append_cancel_left hd)

lemma rewrite_headers_go (us acc : List (String × String))
    (hnd : (us.map Prod.fst).Nodup)
    (hdisj : ∀ p ∈ acc, ∀ kv ∈ us, p.1 ≠ out_name kv.1) :
    us.foldl rewrite_step acc = acc ++ us.map out_pair := by
  induction us generalizing acc with
  | nil => simp
  | cons kv rest ih =>
    have hnd' : (kv.1 :: rest.map Prod.fst).Nodup := by simpa using hnd
    have hstep : rewrite_step acc kv = acc ++ [out_pair kv] := by
      rw [rewrite_step_eq]
      exact insert_header_of_not_mem _ _ _
        (fun p hp => hdisj p hp kv (List.mem_cons_self _ _))
    have h1 : (rest.map Prod.fst).Nodup := (List.nodup_cons.mp hnd').2
    have h2 : ∀ p ∈ acc ++ [out_pair kv], ∀ kv' ∈ rest, p.1 ≠ out_name kv'.1 := by
      intro p hp kv' hkv'
      rcases List.mem_append.mp hp with hpacc | hpnew
      · exact hdisj p hpacc kv' (List.mem_cons_of_mem _ hkv')
      · have hpkv : p = out_pair kv := by simpa using hpnew
        subst hpkv
        intro hcontra
        have hk : kv.1 = kv'.1 := out_name_injective hcontra
        have hnotin : kv.1 ∉ rest.map Prod.fst := (List.nodup_cons.mp hnd').1
        exact hnotin (hk ▸ List.mem_map_of_mem Prod.fst hkv')
    rw [List.foldl_cons, hstep, ih (acc ++ [out_pair kv]) h1 h2]
    simp

lemma rewrite_headers_eq_map (us : List (String × String))
    (hnd : (us.map Prod.fst).Nodup) :
    rewrite_headers us = us.map out_pair := by
  have := rewrite_headers_go us [] hnd (by intro p hp; simp at hp)
  simpa [rewrite_headers] using this

lemma rewrite_headers_nodup (us : List (String × String))
    (hnd : (us.map Prod.fst).Nodup) : (us.map out_pair).Nodup := by
  have hmap : (us.map out_pair).map Prod.fst = (us.map Prod.fst).map out_name := by
    simp [out_pair, Function.comp]
  have hnames : ((us.map out_pair).map Prod.fst).Nodup := by
    rw [hmap]
    exact List.Nodup.map out_name_injective hnd
  exact List.Nodup.of_map _ hnames

lemma count_eq_one_of_nodup_mem {α} [BEq α] [LawfulBEq α] {l : List α} {a : α}
    (hnd : l.Nodup) (ha : a ∈ l) : l.count a = 1 := by
  induction l with
  | nil => simp at ha
  | cons x xs ih =>
    rcases List.mem_cons.mp ha with rfl | hmem
    · rw [List.count_cons_self]
      have hx : a ∉ xs := (List.nodup_cons.mp hnd).1
      have hz : xs.count a = 0 := List.count_eq_zero.mpr hx
      omega
    · have hx : x ≠ a := by
        rintro rfl
        exact (List.nodup_cons.mp hnd).1 hmem
      rw [List.count_cons_of_ne (Ne.symm hx)]
      exact ih (List.nodup_cons.mp hnd).2 hmem

lemma passthrough_request_ok_inv (env : PassthroughEnv)
    (resp : PassthroughResponse) (tr : List PassthroughStep)
    (h : passthrough_request env = (.ok resp, tr)) :
    ∃ res body, env.dispatch = .ok res ∧ res.body = some body ∧
      resp = ⟨res.status, rewrite_headers res.headers, body⟩ ∧
      tr = [.resolveConnection, .dispatchRequest, .rewriteHeaders,
        .spawnAuditTask, .sendMetric, .readBody, .respond] := by
  unfold passthrough_request at h
  split at h
  · simp at h
  split at h
  · simp at h
  split at h
  · simp at h
  split at h
  · simp at h
  split at h
  · simp at h
  injection h with h1 h2
  injection h1 with h1
  refine ⟨_, _, ?_, ?_, h1.symm, h2.symm⟩ <;> assumption

/-- Sample caller identity for concrete runs. -/
def sampleAccess : EventAccess := ⟨⟨"b1"⟩, "live"⟩

/-- Sample connection owned by the sample caller. -/
def sampleConnection : Connection :=
  { id := "conn-1", key := "ck-1", platform := "stripe", platform_version := "v1"
    secrets_service_id := "sec-1", owner_buildable_id := "b1"
    environment := "live", deleted := false }

/-- Concrete passthrough environment parameterised by the upstream response
headers, used to evaluate the handler on closed inputs. -/
def mkPassthroughEnv (upstream : List (String × String)) : PassthroughEnv :=
  { access := sampleAccess
    connection_header := some "ck-1"
    auth_header := some "sk-live-1"
    id_header := none
    uri_path := "/v1/charges"
    method := "post"
    query_params := []
    connections := [sampleConnection]
    dispatch := .ok { status := 201, headers := upstream, body := some "okbody" } }

/-- C3 counterexample: an upstream response carrying the same header name
twice (two Set-Cookie values) loses the earlier value, so the upstream header
pair set-cookie: a does not appear exactly once under the passthrough
marker in the caller-facing response. -/
theorem C3_counterexample :
    (passthrough_request
        (mkPassthroughEnv [("set-cookie", "a"), ("set-cookie", "b")])).1 =
      Except.ok ⟨201, rewrite_headers [("set-cookie", "a"), ("set-cookie", "b")],
        "okbody"⟩ ∧
    ("set-cookie", "a") ∈ [("set-cookie", "a"), ("set-cookie", "b")] ∧
    (rewrite_headers [("set-cookie", "a"), ("set-cookie", "b")]).count
        (PICA_PASSTHROUGH_HEADER ++ "-" ++ "set-cookie", "a") ≠ 1 :=
  ⟨rfl, by decide, by decide⟩

/-- C3 (amended): for every passthrough response whose upstream header names
are pairwise distinct, the Content-Length pair is forwarded verbatim exactly
once, and every other upstream header pair appears exactly once under the
passthrough marker prefix with its value unchanged. -/
theorem C3_passthrough_headers (env : PassthroughEnv)
    (resp : PassthroughResponse) (tr : List PassthroughStep) (res : ExecResult)
    (k v : String)
    (hrun : passthrough_request env = (.ok resp, tr))
    (hdisp : env.dispatch = .ok res)
    (hnd : (res.headers.map Prod.fst).Nodup)
    (hmem : (k, v) ∈ res.headers) :
    (k = CONTENT_LENGTH → resp.headers.count (k, v) = 1) ∧
    (k ≠ CONTENT_LENGTH →
      resp.headers.count (PICA_PASSTHROUGH_HEADER ++ "-" ++ k, v) = 1) := by
  obtain ⟨res', b, hdisp', hbody, hresp, -⟩ :=
    passthrough_request_ok_inv env resp tr hrun
  rw [hdisp] at hdisp'
  injection hdisp' with hres
  subst hres
  subst hresp
  have hrw : rewrite_headers res.headers = res.headers.map out_pair :=
    rewrite_headers_eq_map _ hnd
  have hnodup : (res.headers.map out_pair).Nodup := rewrite_headers_nodup _ hnd
  constructor
  · rintro rfl
    have hpair : out_pair (CONTENT_LENGTH, v) = (CONTENT_LENGTH, v) := by
      simp [out_pair, out_name]
    show (rewrite_headers res.headers).count (CONTENT_LENGTH, v) = 1
    rw [hrw, ← hpair]
    exact count_eq_one_of_nodup_mem hnodup (List.mem_map_of_mem _ hmem)
  · intro hk
    have hpair : out_pair (k, v) = (PICA_PASSTHROUGH_HEADER ++ "-" ++ k, v) := by
      simp [out_pair, out_name, hk]
    show (rewrite_headers res.headers).count
      (PICA_PASSTHROUGH_HEADER ++ "-" ++ k, v) = 1
    rw [hrw, ← hpair]
    exact count_eq_one_of_nodup_mem hnodup (List.mem_map_of_mem _ hmem)

/-- C3 witness: on a concrete upstream response with distinct header names,
the prefixed x-request-id pair appears exactly once in the caller headers. -/
theorem C3_passthrough_headers_witness :
    ("x-request-id" = CONTENT_LENGTH →
      (PassthroughResponse.mk 201
        [("content-length", "42"), ("pica-passthrough-x-request-id", "r1")]
        "okbody").headers.count ("x-request-id", "r1") = 1) ∧
    ("x-request-id" ≠ CONTENT_LENGTH →
      (PassthroughResponse.mk 201
        [("content-length", "42"), ("pica-passthrough-x-request-id", "r1")]
        "okbody").headers.count
          (PICA_PASSTHROUGH_HEADER ++ "-" ++ "x-request-id", "r1") = 1) :=
  C3_passthrough_headers
    (mkPassthroughEnv [("content-length", "42"), ("x-request-id", "r1")])
    (PassthroughResponse.mk 201
      [("content-length", "42"), ("pica-passthrough-x-request-id", "r1")] "okbody")
    [.resolveConnection, .dispatchRequest, .rewriteHeaders, .spawnAuditTask,
      .sendMetric, .readBody, .respond]
    { status := 201
      headers := [("content-length", "42"), ("x-request-id", "r1")]
      body := some "okbody" }
    "x-request-id" "r1" rfl rfl (by decide) (by decide)

/-- C9 counterexample: on a concrete successful passthrough run, the metric
send and the audit task spawn occur strictly before the response step, so the
fan-out side effects are not confined to after the response is returned. -/
theorem C9_counterexample :
    PassthroughStep.sendMetric ∈
      (passthrough_request (mkPassthroughEnv [("x-request-id", "r1")])).2 ∧
    PassthroughStep.respond ∈
      (passthrough_request (mkPassthroughEnv [("x-request-id", "r1")])).2 ∧
    ¬ ((passthrough_request (mkPassthroughEnv [("x-request-id", "r1")])).2.indexOf
          PassthroughStep.respond <
        (passthrough_request (mkPassthroughEnv [("x-request-id", "r1")])).2.indexOf
          PassthroughStep.sendMetric) := by
  refine ⟨by decide, by decide, by decide⟩

/-- C9 (amended): within one successful passthrough request the steps occur
in the strict order: connection resolution, dispatch, response header
rewrite, audit fan-out task spawn, metric send, body read, response; the
audit task spawn and the metric send happen before the response is returned,
and only the detached audit task itself may run after it. -/
theorem C9_step_order (env : PassthroughEnv) (resp : PassthroughResponse)
    (tr : List PassthroughStep)
    (h : passthrough_request env = (.ok resp, tr)) :
    tr = [.resolveConnection, .dispatchRequest, .rewriteHeaders,
      .spawnAuditTask, .sendMetric, .readBody, .respond] := by
  obtain ⟨-, -, -, -, -, htr⟩ := passthrough_request_ok_inv env resp tr h
  exact htr

/-- C9 witness: the concrete run produces exactly the ordered trace. -/
theorem C9_step_order_witness :
    (passthrough_request (mkPassthroughEnv [("x-request-id", "r1")])).2 =
      [.resolveConnection, .dispatchRequest, .rewriteHeaders, .spawnAuditTask,
        .sendMetric, .readBody, .respond] :=
  C9_step_order (mkPassthroughEnv [("x-request-id", "r1")])
    ⟨201, [("pica-passthrough-x-request-id", "r1")], "okbody"⟩
    [.resolveConnection, .dispatchRequest, .rewriteHeaders, .spawnAuditTask,
      .sendMetric, .readBody, .respond] rfl

/-- Sample stored CMD whose name and model_name fields differ. -/
def sampleCMD : ConnectionModelDefinition :=
  { id := "cmd-1"
    connection_platform := "stripe"
    connection_definition_id := "cd-1"
    platform_version := "v1"
    key := "api::stripe::v1::charges::create::/v1/charges::charge"
    title := "Create Charge"
    name := "charge"
    model_name := "charges"
    platform_info := .api
      { base_url := "https://api.stripe.com"
        path := "/v1/charges"
        content := ⟨""⟩
        auth_method := ⟨"bearer"⟩
        headers := none
        query_params := none
        schemas := ⟨""⟩
        samples := ⟨""⟩
        responses := []
        paths := none }
    action := "POST"
    action_name := "create"
    extractor_config := none
    test_connection_status := ⟨0, .failure "" ""⟩
    test_connection_payload := none
    is_default_crud_mapping := none
    mapping := none
    record_metadata := RecordMetadata.init
    supported := true
    knowledge := none
    ownership := some "b1" }

/-- C8 counterexample: the fan-out task emits an event whose name is built
from the name field of the sparse CMD, which differs from the claimed
formula built from model_name whenever the two fields differ. -/
theorem C8_counterexample :
    (passthrough_fanout [sampleCMD] "stripe" "v1" none "/v1/charges" "post"
        (some "enc-key") (fun s => some s) true (fun _ => some "ak")
        "metabody" [] 201).map AuditEvent.name =
      some (audit_event_name "stripe" "v1" (sparse_projection sampleCMD) 201) ∧
    audit_event_name "stripe" "v1" (sparse_projection sampleCMD) 201 ≠
      claimed_audit_event_name "stripe" "v1" sampleCMD.model_name
        sampleCMD.action_name 201 := by
  exact ⟨by decide, by decide⟩

/-- C8 (amended): every audit event emitted by the fan-out task carries the
name platform::platform_version::name::action_name::request-succeeded when
the upstream status is a success code and ::request-failed otherwise, where
name is the name field of the matched CMD (not model_name). -/
theorem C8_event_name (cmds : List ConnectionModelDefinition)
    (cp cpv : String) (id_str : Option String) (uri_path method : String)
    (secret_header : Option String) (pe : String → Option String)
    (pok : Bool) (pak : String → Option String) (mb : String)
    (rh : List (String × String)) (status : Nat)
    (r : ConnectionModelDefinition) (e : AuditEvent)
    (hfind : cmds.find?
      (fanout_query_matches cp uri_path (asciiUpper method) id_str) = some r)
    (hemit : passthrough_fanout cmds cp cpv id_str uri_path method
      secret_header pe pok pak mb rh status = some e) :
    e.name = claimed_audit_event_name cp cpv r.name r.action_name status := by
  unfold passthrough_fanout at hemit
  rw [hfind] at hemit
  rcases secret_header with _ | sh
  · simp at hemit
  simp only at hemit
  rcases hpe : pe sh with _ | enc <;> rw [hpe] at hemit
  · simp at hemit
  simp only at hemit
  rcases pok with _ | _
  · simp at hemit
  simp only [if_true] at hemit
  rcases hpak : pak enc with _ | ak <;> rw [hpak] at hemit
  · simp at hemit
  simp only [Option.some.injEq] at hemit
  subst hemit
  show audit_event_name cp cpv (sparse_projection r) status =
    claimed_audit_event_name cp cpv r.name r.action_name status
  unfold audit_event_name claimed_audit_event_name sparse_projection
  by_cases hs : isSuccessCode status <;>
    simp [hs, String.append_assoc]

/-- C8 witness: a concrete emitted event has the amended name. -/
theorem C8_event_name_witness :
    (AuditEvent.mk "ak" "enc-key"
        (audit_event_name "stripe" "v1" (sparse_projection sampleCMD) 201)
        [] "metabody").name =
      claimed_audit_event_name "stripe" "v1" sampleCMD.name
        sampleCMD.action_name 201 :=
  C8_event_name [sampleCMD] "stripe" "v1" none "/v1/charges" "post"
    (some "enc-key") (fun s => some s) true (fun _ => some "ak") "metabody"
    [] 201 sampleCMD
    (AuditEvent.mk "ak" "enc-key"
      (audit_event_name "stripe" "v1" (sparse_projection sampleCMD) 201)
      [] "metabody")
    (by decide) (by decide)

/-! ## Connection variable mappings (osentities entity and
src/api/src/logic/connection_variable_mapping.rs) -/

/-- ParameterLocation: where to inject the variable value. -/
inductive ParameterLocation where
  | pathParam
  | queryParam
  | headerLoc
  | bodyField
deriving DecidableEq, Repr

/-- InjectionStrategy: how to inject the variable value. -/
inductive InjectionStrategy where
  | strict
  | fallback
  | append
deriving DecidableEq, Repr

/-- VariableDataType: expected data type of the variable. -/
inductive VariableDataType where
  | stringTy
  | numberTy
  | booleanTy
  | jsonTy
deriving DecidableEq, Repr

/-- VariableBinding: one variable-to-parameter binding of a CVM. -/
structure VariableBinding where
  variable_name : String
  target_param : String
  location : ParameterLocation
  strategy : InjectionStrategy
  data_type : VariableDataType
deriving DecidableEq, Repr

/-- ConnectionVariableMapping: the platform-level record binding secret
variables to definition parameters. -/
structure ConnectionVariableMapping where
  id : Id
  connection_model_definition_id : Id
  connection_platform : String
  bindings : List VariableBinding
  ownership : Ownership
  environment : String
  record_metadata : RecordMetadata
deriving DecidableEq, Repr

namespace Cvm

/-- BindingRequest: binding payload of the CVM create and update requests. -/
structure BindingRequest where
  variable_name : String
  target_param : String
  location : ParameterLocation
  strategy : InjectionStrategy
  data_type : VariableDataType
deriving DecidableEq, Repr

/-- Conversion of a binding request into the stored VariableBinding, the map
applied in both access and update. -/
def BindingRequest.toBinding (b : BindingRequest) : VariableBinding :=
  { variable_name := b.variable_name
    target_param := b.target_param
    location := b.location
    strategy := b.strategy
    data_type := b.data_type }

/-- CreateRequest for CVMs: id, target definition, platform and bindings. -/
structure CreateRequest where
  id : Option Id
  connection_model_definition_id : Id
  connection_platform : String
  bindings : List BindingRequest
deriving DecidableEq, Repr

/-- CreateRequest::access: build the stored record, taking ownership and
environment from the caller EventAccess and fresh metadata; freshId models
Id::now used when the payload carries no id. -/
def CreateRequest.access (self : CreateRequest) (event_access : EventAccess)
    (freshId : Id) : ConnectionVariableMapping :=
  { id := self.id.getD freshId
    connection_model_definition_id := self.connection_model_definition_id
    connection_platform := self.connection_platform
    bindings := self.bindings.map BindingRequest.toBinding
    ownership := event_access.ownership
    environment := event_access.environment
    record_metadata := RecordMetadata.init }

/-- CreateRequest::update: replace the definition id, platform and bindings,
stamp updated_at (now models Utc::now) and set the updated flag; everything
else on the record is kept. -/
def CreateRequest.update (self : CreateRequest) (now : Int)
    (record : ConnectionVariableMapping) : ConnectionVariableMapping :=
  { record with
    connection_model_definition_id := self.connection_model_definition_id
    connection_platform := self.connection_platform
    bindings := self.bindings.map BindingRequest.toBinding
    record_metadata :=
      { record.record_metadata with updated_at := now, updated := true } }

end Cvm

/-- create_mapping: check global uniqueness of the target definition id over
non-deleted CVMs (get_many with limit 1, no ownership clause), conflict when
a row exists, otherwise create the record and answer 201 CREATED. Returns the
handler outcome paired with the post-state of the store. -/
def create_mapping (store : List ConnectionVariableMapping)
    (access : EventAccess) (payload : Cvm.CreateRequest) (freshId : Id) :
    Except PicaErr (Nat × ConnectionVariableMapping) ×
      List ConnectionVariableMapping :=
  let existing := (store.filter fun r =>
    r.connection_model_definition_id == payload.connection_model_definition_id
      && !r.record_metadata.deleted).take 1
  if !existing.isEmpty then
    (.error (.conflict ("Mapping already exists for model definition "
        ++ payload.connection_model_definition_id)), store)
  else
    let record := payload.access access freshId
    (.ok (201, record), store ++ [record])

/-- update_mapping: find the mapping by id with deleted false and no
ownership clause, not_found when absent; otherwise apply the update payload
and persist the whole record by id. Returns the handler outcome paired with
the post-state of the store. -/
def update_mapping (store : List ConnectionVariableMapping) (id : Id)
    (payload : Cvm.CreateRequest) (now : Int) :
    Except PicaErr Bool × List ConnectionVariableMapping :=
  match store.find? (fun r => r.id == id && !r.record_metadata.deleted) with
  | none => (.error (.notFound ("Mapping with id " ++ id ++ " not found")), store)
  | some record =>
    let updated_record := payload.update now record
    (.ok true, store.map (fun r => if r.id == id then updated_record else r))

/-- C4: a CVM create conflicts and leaves the store untouched exactly when a
non-deleted CVM for the same connection_model_definition_id exists anywhere,
regardless of tenant ownership; otherwise the record is appended and the
handler answers 201. -/
theorem C4_create_uniqueness (store : List ConnectionVariableMapping)
    (access : EventAccess) (payload : Cvm.CreateRequest) (freshId : Id) :
    ((∃ r ∈ store,
        r.connection_model_definition_id = payload.connection_model_definition_id ∧
        r.record_metadata.deleted = false) →
      (∃ m, (create_mapping store access payload freshId).1 = .error (.conflict m)) ∧
      (create_mapping store access payload freshId).2 = store) ∧
    ((∀ r ∈ store,
        r.connection_model_definition_id = payload.connection_model_definition_id →
        r.record_metadata.deleted = true) →
      (create_mapping store access payload freshId).1 =
        .ok (201, payload.access access freshId) ∧
      (create_mapping store access payload freshId).2 =
        store ++ [payload.access access freshId]) := by
  have hkey : ∀ (l : List ConnectionVariableMapping), (l.take 1).isEmpty = l.isEmpty := by
    intro l; cases l <;> simp
  constructor
  · rintro ⟨r, hr, hrid, hrdel⟩
    have hne : (store.filter fun r =>
        r.connection_model_definition_id == payload.connection_model_definition_id
          && !r.record_metadata.deleted) ≠ [] := by
      intro hnil
      have := List.filter_eq_nil_iff.mp hnil r hr
      simp [hrid, hrdel] at this
    unfold create_mapping
    rw [if_pos]
    · exact ⟨⟨_, rfl⟩, rfl⟩
    · simp only [hkey]
      cases hf : (store.filter fun r =>
          r.connection_model_definition_id == payload.connection_model_definition_id
            && !r.record_metadata.deleted) with
      | nil => exact absurd hf hne
      | cons a as => simp
  · intro hall
    have hnil : (store.filter fun r =>
        r.connection_model_definition_id == payload.connection_model_definition_id
          && !r.record_metadata.deleted) = [] := by
      apply List.filter_eq_nil_iff.mpr
      intro r hr
      intro hcontra
      simp only [Bool.and_eq_true, beq_iff_eq, Bool.not_eq_true'] at hcontra
      exact absurd (hall r hr hcontra.1) (by simp [hcontra.2])
    unfold create_mapping
    rw [if_neg]
    · exact ⟨rfl, rfl⟩
    · simp [hkey, hnil]

/-- C4 witness: creating into an empty store succeeds with 201 and appends
exactly one row. -/
theorem C4_create_uniqueness_witness :
    (create_mapping [] sampleAccess ⟨none, "cmd-1", "stripe", []⟩ "cvm-1").1 =
      .ok (201, (Cvm.CreateRequest.access ⟨none, "cmd-1", "stripe", []⟩
        sampleAccess "cvm-1")) ∧
    (create_mapping [] sampleAccess ⟨none, "cmd-1", "stripe", []⟩ "cvm-1").2 =
      [] ++ [Cvm.CreateRequest.access ⟨none, "cmd-1", "stripe", []⟩
        sampleAccess "cvm-1"] :=
  (C4_create_uniqueness [] sampleAccess ⟨none, "cmd-1", "stripe", []⟩
    "cvm-1").2 (by intro r hr; simp at hr)

/-- C10: updating a CVM by id replaces only the definition id, the platform
and the bindings, stamps updated_at and the updated flag, and leaves the id,
ownership, environment, creation timestamp, soft-delete flag, active flag,
tags and version untouched; the store keeps every other record unchanged. -/
theorem C10_update_frame (store : List ConnectionVariableMapping) (id : Id)
    (payload : Cvm.CreateRequest) (now : Int)
    (record : ConnectionVariableMapping)
    (hfind : store.find? (fun r => r.id == id && !r.record_metadata.deleted) =
      some record) :
    (update_mapping store id payload now).1 = .ok true ∧
    (update_mapping store id payload now).2 = store.map
      (fun r => if r.id == id then payload.update now record else r) ∧
    (payload.update now record).id = record.id ∧
    (payload.update now record).ownership = record.ownership ∧
    (payload.update now record).environment = record.environment ∧
    (payload.update now record).record_metadata.created_at =
      record.record_metadata.created_at ∧
    (payload.update now record).record_metadata.deleted =
      record.record_metadata.deleted ∧
    (payload.update now record).record_metadata.active =
      record.record_metadata.active ∧
    (payload.update now record).record_metadata.tags =
      record.record_metadata.tags ∧
    (payload.update now record).record_metadata.version =
      record.record_metadata.version ∧
    (payload.update now record).connection_model_definition_id =
      payload.connection_model_definition_id ∧
    (payload.update now record).connection_platform =
      payload.connection_platform ∧
    (payload.update now record).bindings =
      payload.bindings.map Cvm.BindingRequest.toBinding ∧
    (payload.update now record).record_metadata.updated_at = now ∧
    (payload.update now record).record_metadata.updated = true := by
  unfold update_mapping
  rw [hfind]
  exact ⟨rfl, rfl, rfl, rfl, rfl, rfl, rfl, rfl, rfl, rfl, rfl, rfl, rfl,
    rfl, rfl⟩

/-- Sample stored CVM used in concrete runs. -/
def sampleCVM : ConnectionVariableMapping :=
  { id := "cvm-1"
    connection_model_definition_id := "cmd-1"
    connection_platform := "stripe"
    bindings := []
    ownership := ⟨"b1"⟩
    environment := "live"
    record_metadata := RecordMetadata.init }

/-- C10 witness: a concrete update keeps id, ownership and environment and
rewrites only the three payload fields plus the update stamps. -/
theorem C10_update_frame_witness :
    (update_mapping [sampleCVM] "cvm-1"
        ⟨none, "cmd-9", "notion", []⟩ 77).1 = .ok true ∧
    (update_mapping [sampleCVM] "cvm-1"
        ⟨none, "cmd-9", "notion", []⟩ 77).2 = [sampleCVM].map
      (fun r => if r.id == "cvm-1" then
        Cvm.CreateRequest.update ⟨none, "cmd-9", "notion", []⟩ 77 sampleCVM
        else r) ∧
    (Cvm.CreateRequest.update ⟨none, "cmd-9", "notion", []⟩ 77 sampleCVM).id =
      sampleCVM.id ∧
    (Cvm.CreateRequest.update ⟨none, "cmd-9", "notion", []⟩ 77
      sampleCVM).ownership = sampleCVM.ownership ∧
    (Cvm.CreateRequest.update ⟨none, "cmd-9", "notion", []⟩ 77
      sampleCVM).environment = sampleCVM.environment ∧
    (Cvm.CreateRequest.update ⟨none, "cmd-9", "notion", []⟩ 77
      sampleCVM).record_metadata.created_at =
      sampleCVM.record_metadata.created_at ∧
    (Cvm.CreateRequest.update ⟨none, "cmd-9", "notion", []⟩ 77
      sampleCVM).record_metadata.deleted =
      sampleCVM.record_metadata.deleted ∧
    (Cvm.CreateRequest.update ⟨none, "cmd-9", "notion", []⟩ 77
      sampleCVM).record_metadata.active =
      sampleCVM.record_metadata.active ∧
    (Cvm.CreateRequest.update ⟨none, "cmd-9", "notion", []⟩ 77
      sampleCVM).record_metadata.tags =
      sampleCVM.record_metadata.tags ∧
    (Cvm.CreateRequest.update ⟨none, "cmd-9", "notion", []⟩ 77
      sampleCVM).record_metadata.version =
      sampleCVM.record_metadata.version ∧
    (Cvm.CreateRequest.update ⟨none, "cmd-9", "notion", []⟩ 77
      sampleCVM).connection_model_definition_id = "cmd-9" ∧
    (Cvm.CreateRequest.update ⟨none, "cmd-9", "notion", []⟩ 77
      sampleCVM).connection_platform = "notion" ∧
    (Cvm.CreateRequest.update ⟨none, "cmd-9", "notion", []⟩ 77
      sampleCVM).bindings = List.map Cvm.BindingRequest.toBinding [] ∧
    (Cvm.CreateRequest.update ⟨none, "cmd-9", "notion", []⟩ 77
      sampleCVM).record_metadata.updated_at = 77 ∧
    (Cvm.CreateRequest.update ⟨none, "cmd-9", "notion", []⟩ 77
      sampleCVM).record_metadata.updated = true :=
  C10_update_frame [sampleCVM] "cvm-1" ⟨none, "cmd-9", "notion", []⟩ 77
    sampleCVM (by decide)

/-! ## CMD CRUD, batch update engine and test-connection handler
(src/api/src/logic/connection_model_definition.rs) -/

namespace Cmd

/-- CreateRequest for CMDs: the full create and single-update payload. -/
structure CreateRequest where
  id : Option Id
  connection_platform : String
  connection_definition_id : Id
  platform_version : String
  title : String
  name : String
  model_name : String
  base_url : String
  path : String
  auth_method : AuthMethod
  action_name : String
  http_method : String
  headers : Option (List (String × String))
  query_params : Option (List (String × String))
  extractor_config : Option ExtractorConfig
  schemas : SchemasInput
  samples : SamplesInput
  responses : List ResponseBody
  version : String
  is_default_crud_mapping : Option Bool
  test_connection_payload : Option JsonVal
  test_connection_status : Option TestConnection
  mapping : Option CrudMapping
  paths : Option ModelPaths
  supported : Option Bool
  active : Option Bool
  knowledge : Option String
  tags : Option (List String)
deriving DecidableEq, Repr

/-- CreateRequest::update, the merge applied by the single-record PATCH
handler: the key is regenerated from the request fields, every routing and
transport field is overwritten from the request, optional lifecycle fields
only when present; note that the model_name field of the record itself is
not overwritten. -/
def CreateRequest.update (self : CreateRequest)
    (record : ConnectionModelDefinition) : ConnectionModelDefinition :=
  let key := cmd_key_format self.connection_platform self.platform_version
    self.model_name self.action_name self.path self.name
  { record with
    key := key
    connection_platform := self.connection_platform
    connection_definition_id := self.connection_definition_id
    platform_version := self.platform_version
    title := self.title
    name := self.name
    action := self.http_method
    action_name := self.action_name
    platform_info := .api
      { base_url := self.base_url
        path := self.path
        content := ⟨""⟩
        auth_method := self.auth_method
        headers := self.headers
        query_params := self.query_params
        schemas := self.schemas
        samples := self.samples
        responses := self.responses
        paths := self.paths }
    mapping := self.mapping
    extractor_config := self.extractor_config
    knowledge := self.knowledge
    record_metadata :=
      { record.record_metadata with
        version := self.version
        tags := self.tags.getD record.record_metadata.tags
        active := self.active.getD record.record_metadata.active }
    supported := self.supported.getD record.supported
    test_connection_payload :=
      match self.test_connection_payload with
      | some p => some p
      | none => record.test_connection_payload
    test_connection_status :=
      self.test_connection_status.getD record.test_connection_status }

/-- PartialUpdateRequest: one item of the batch update payload; every field
optional. -/
structure PartialUpdateRequest where
  id : Option Id
  connection_platform : Option String
  connection_definition_id : Option Id
  platform_version : Option String
  title : Option String
  name : Option String
  model_name : Option String
  base_url : Option String
  path : Option String
  auth_method : Option AuthMethod
  action_name : Option String
  http_method : Option String
  headers : Option (List (String × String))
  query_params : Option (List (String × String))
  extractor_config : Option ExtractorConfig
  schemas : Option SchemasInput
  samples : Option SamplesInput
  responses : Option (List ResponseBody)
  version : Option String
  is_default_crud_mapping : Option Bool
  test_connection_payload : Option JsonVal
  test_connection_status : Option TestConnection
  mapping : Option CrudMapping
  paths : Option ModelPaths
  supported : Option Bool
  active : Option Bool
  knowledge : Option String
  tags : Option (List String)
deriving DecidableEq, Repr

/-- BatchUpdateResult: the per-item outcome pushed by the batch engine. -/
structure BatchUpdateResult where
  id : Option String
  success : Bool
  error : Option String
deriving DecidableEq, Repr

/-- Merging logic of update_many: present fields overwrite, the Api config
fields only when the current variant is Api, then the key is regenerated
unconditionally from the merged record. -/
def apply_partial (request : PartialUpdateRequest)
    (record0 : ConnectionModelDefinition) : ConnectionModelDefinition :=
  let record := { record0 with
    connection_platform :=
      request.connection_platform.getD record0.connection_platform
    connection_definition_id :=
      request.connection_definition_id.getD record0.connection_definition_id
    platform_version := request.platform_version.getD record0.platform_version
    title := request.title.getD record0.title
    name := request.name.getD record0.name
    model_name := request.model_name.getD record0.model_name
    action_name := request.action_name.getD record0.action_name
    action := request.http_method.getD record0.action }
  let record :=
    match record.platform_info with
    | .api api_config =>
      let api2 : ApiModelConfig :=
        { api_config with
          base_url := request.base_url.getD api_config.base_url
          path := request.path.getD api_config.path
          auth_method := request.auth_method.getD api_config.auth_method
          headers := match request.headers with
            | some v => some v
            | none => api_config.headers
          query_params := match request.query_params with
            | some v => some v
            | none => api_config.query_params
          schemas := request.schemas.getD api_config.schemas
          samples := request.samples.getD api_config.samples
          responses := request.responses.getD api_config.responses
          paths := match request.paths with
            | some v => some v
            | none => api_config.paths }
      { record with platform_info := PlatformInfo.api api2 }
    | .other _ => record
  let record := { record with
    extractor_config := match request.extractor_config with
      | some v => some v
      | none => record.extractor_config
    record_metadata := { record.record_metadata with
      version := request.version.getD record.record_metadata.version
      active := request.active.getD record.record_metadata.active
      tags := request.tags.getD record.record_metadata.tags }
    is_default_crud_mapping := match request.is_default_crud_mapping with
      | some v => some v
      | none => record.is_default_crud_mapping
    test_connection_payload := match request.test_connection_payload with
      | some v => some v
      | none => record.test_connection_payload
    test_connection_status :=
      request.test_connection_status.getD record.test_connection_status
    mapping := match request.mapping with
      | some v => some v
      | none => record.mapping
    supported := request.supported.getD record.supported
    knowledge := match request.knowledge with
      | some v => some v
      | none => record.knowledge }
  { record with
    key := cmd_key_format record.connection_platform record.platform_version
      record.model_name record.action_name record.api_path record.name }

end Cmd

/-- Modelled from the spec: the tenant-scoped store filter of the batch
engine, shape_mongo_filter output with the item id inserted; it matches on
id, the soft-delete flag, and, when event access is supplied, the tenant
ownership of the document. -/
def cmd_matches_filter (access : Option EventAccess) (idStr : Id)
    (r : ConnectionModelDefinition) : Bool :=
  r.id == idStr && !r.record_metadata.deleted &&
    (match access with
     | some a => r.ownership == some a.ownership.id
     | none => true)

/-- update_one on the CMD store: replace the documents matching the id. -/
def update_one_cmd (store : List ConnectionModelDefinition) (idStr : Id)
    (record : ConnectionModelDefinition) : List ConnectionModelDefinition :=
  store.map (fun r => if r.id == idStr then record else r)

/-- update_many, the batch update engine: one result per input item in
order, continuing past failures. In this embedding the store is a list and
serialization and store writes cannot fail, so only the Missing ID, Record
not found and success arms arise. -/
def update_many (access : Option EventAccess) :
    List ConnectionModelDefinition → List Cmd.PartialUpdateRequest →
      List Cmd.BatchUpdateResult × List ConnectionModelDefinition
  | store, [] => ([], store)
  | store, request :: rest =>
    match request.id with
    | none =>
      let next := update_many access store rest
      (⟨none, false, some "Missing ID"⟩ :: next.1, next.2)
    | some id_str =>
      match store.find? (cmd_matches_filter access id_str) with
      | some record =>
        let merged := Cmd.apply_partial request record
        let store2 := update_one_cmd store id_str merged
        let next := update_many access store2 rest
        (⟨some id_str, true, none⟩ :: next.1, next.2)
      | none =>
        let next := update_many access store rest
        (⟨some id_str, false, some "Record not found"⟩ :: next.1, next.2)

lemma apply_partial_id (request : Cmd.PartialUpdateRequest)
    (record : ConnectionModelDefinition) :
    (Cmd.apply_partial request record).id = record.id := by
  unfold Cmd.apply_partial
  cases h : record.platform_info <;> simp [h]

lemma apply_partial_deleted (request : Cmd.PartialUpdateRequest)
    (record : ConnectionModelDefinition) :
    (Cmd.apply_partial request record).record_metadata.deleted =
      record.record_metadata.deleted := by
  unfold Cmd.apply_partial
  cases h : record.platform_info <;> simp [h]

lemma apply_partial_ownership (request : Cmd.PartialUpdateRequest)
    (record : ConnectionModelDefinition) :
    (Cmd.apply_partial request record).ownership = record.ownership := by
  unfold Cmd.apply_partial
  cases h : record.platform_info <;> simp [h]

lemma cmd_matches_filter_apply_partial (access : Option EventAccess) (i : Id)
    (request : Cmd.PartialUpdateRequest) (record : ConnectionModelDefinition) :
    cmd_matches_filter access i (Cmd.apply_partial request record) =
      cmd_matches_filter access i record := by
  unfold cmd_matches_filter
  rw [apply_partial_id, apply_partial_deleted, apply_partial_ownership]

lemma update_one_cmd_no_match (access : Option EventAccess)
    (store : List ConnectionModelDefinition) (idStr : Id)
    (request : Cmd.PartialUpdateRequest) (record : ConnectionModelDefinition)
    (i : Id) (hrec : record ∈ store)
    (hno : ∀ r ∈ store, cmd_matches_filter access i r = false) :
    ∀ r ∈ update_one_cmd store idStr (Cmd.apply_partial request record),
      cmd_matches_filter access i r = false := by
  intro r hr
  unfold update_one_cmd at hr
  obtain ⟨r0, hr0, hmap⟩ := List.mem_map.mp hr
  by_cases hcase : (r0.id == idStr) = true
  · rw [if_pos hcase] at hmap
    rw [← hmap, cmd_matches_filter_apply_partial]
    exact hno record hrec
  · rw [if_neg hcase] at hmap
    exact hmap ▸ hno r0 hr0

lemma update_many_forall2 (access : Option EventAccess)
    (payload : List Cmd.PartialUpdateRequest) :
    ∀ store : List ConnectionModelDefinition,
      List.Forall₂ (fun req res =>
          (req.id = none →
            res = Cmd.BatchUpdateResult.mk none false (some "Missing ID")) ∧
          (∀ i, req.id = some i → res.id = some i ∧
            ((∀ r ∈ store, cmd_matches_filter access i r = false) →
              res = Cmd.BatchUpdateResult.mk (some i) false
                (some "Record not found"))))
        payload (update_many access store payload).1 := by
  induction payload with
  | nil => intro store; simp [update_many]
  | cons request rest ih =>
    intro store
    rcases hid : request.id with _ | i
    · have hred : (update_many access store (request :: rest)).1 =
          Cmd.BatchUpdateResult.mk none false (some "Missing ID") ::
            (update_many access store rest).1 := by
        simp [update_many, hid]
      rw [hred]
      refine List.Forall₂.cons ⟨fun _ => rfl, ?_⟩ (ih store)
      intro i hi
      rw [hid] at hi
      cases hi
    · rcases hfind : store.find? (cmd_matches_filter access i) with _ | record
      · have hred : (update_many access store (request :: rest)).1 =
            Cmd.BatchUpdateResult.mk (some i) false (some "Record not found") ::
              (update_many access store rest).1 := by
          simp [update_many, hid, hfind]
        rw [hred]
        refine List.Forall₂.cons ⟨?_, ?_⟩ (ih store)
        · intro hnone; rw [hid] at hnone; cases hnone
        · intro j hj
          rw [hid] at hj
          injection hj with hj
          subst hj
          exact ⟨rfl, fun _ => rfl⟩
      · have hrec_mem : record ∈ store := List.mem_of_find?_eq_some hfind
        have hrec_match : cmd_matches_filter access i record = true :=
          List.find?_some hfind
        have hred : (update_many access store (request :: rest)).1 =
            Cmd.BatchUpdateResult.mk (some i) true none ::
              (update_many access
                (update_one_cmd store i (Cmd.apply_partial request record))
                rest).1 := by
          simp [update_many, hid, hfind]
        rw [hred]
        refine List.Forall₂.cons ⟨?_, ?_⟩ ?_
        · intro hnone; rw [hid] at hnone; cases hnone
        · intro j hj
          rw [hid] at hj
          injection hj with hj
          subst hj
          refine ⟨rfl, ?_⟩
          intro hno
          have hfalse := hno record hrec_mem
          rw [hfalse] at hrec_match
          simp at hrec_match
        · have ihb := ih (update_one_cmd store i (Cmd.apply_partial request record))
          refine List.Forall₂.imp ?_ ihb
          intro req res hpred
          refine ⟨hpred.1, ?_⟩
          intro j hj
          refine ⟨(hpred.2 j hj).1, ?_⟩
          intro hno
          refine (hpred.2 j hj).2 ?_
          exact update_one_cmd_no_match access store i request record j
            hrec_mem hno

/-- C5: the batch update engine returns exactly one result per input item in
order and continues past individual failures: an item without id yields the
Missing ID failure, an item whose id occurs nowhere in the store yields the
Record not found failure, and later items are still processed. -/
theorem C5_batch_results (access : Option EventAccess)
    (store : List ConnectionModelDefinition)
    (payload : List Cmd.PartialUpdateRequest) :
    (update_many access store payload).1.length = payload.length ∧
    List.Forall₂ (fun req res =>
        (req.id = none →
          res = Cmd.BatchUpdateResult.mk none false (some "Missing ID")) ∧
        (∀ i, req.id = some i → res.id = some i ∧
          ((∀ r ∈ store, cmd_matches_filter access i r = false) →
            res = Cmd.BatchUpdateResult.mk (some i) false
              (some "Record not found"))))
      payload (update_many access store payload).1 :=
  ⟨(update_many_forall2 access payload store).length_eq.symm,
    update_many_forall2 access payload store⟩

/-- Sample single-record PATCH payload whose model_name differs from the
stored record. -/
def sampleUpdateRequest : Cmd.CreateRequest :=
  { id := some "cmd-1"
    connection_platform := "stripe"
    connection_definition_id := "cd-1"
    platform_version := "v1"
    title := "Create Charge"
    name := "charge"
    model_name := "invoices"
    base_url := "https://api.stripe.com"
    path := "/v1/charges"
    auth_method := ⟨"bearer"⟩
    action_name := "create"
    http_method := "POST"
    headers := none
    query_params := none
    extractor_config := none
    schemas := ⟨""⟩
    samples := ⟨""⟩
    responses := []
    version := "1.0.0"
    is_default_crud_mapping := none
    test_connection_payload := none
    test_connection_status := none
    mapping := none
    paths := none
    supported := none
    active := none
    knowledge := none
    tags := none }

/-- C6: the single-record PATCH merge computes the key from the request
model_name but never writes model_name onto the record, so the persisted key
diverges from the key recomputed from the merged record whenever the request
changes model_name; the stored record violates the key invariant. -/
theorem C6_update_key_divergence :
    (Cmd.CreateRequest.update sampleUpdateRequest sampleCMD).key =
      cmd_key_format "stripe" "v1" "invoices" "create" "/v1/charges"
        "charge" ∧
    (Cmd.CreateRequest.update sampleUpdateRequest sampleCMD).model_name =
      "charges" ∧
    (Cmd.CreateRequest.update sampleUpdateRequest sampleCMD).key ≠
      cmd_key_of (Cmd.CreateRequest.update sampleUpdateRequest sampleCMD) :=
  ⟨rfl, rfl, by decide⟩

/-! ## Test-connection handler -/

/-- TestConnectionRequest: optional headers, query, path params and body of
a test invocation. -/
structure TestConnectionRequest where
  headers : Option (List (String × String))
  query_params : Option (List (String × String))
  path_params : Option (List (String × String))
  body : Option JsonVal
deriving DecidableEq, Repr

/-- TestConnectionPayload: the connection key plus the request parts. -/
structure TestConnectionPayload where
  connection_key : String
  request : TestConnectionRequest
deriving DecidableEq, Repr

/-- Rendering of an association list used by the request serializer. -/
def renderPairs (l : List (String × String)) : String :=
  l.foldl (fun acc kv => acc ++ kv.1 ++ ":" ++ kv.2 ++ ";") ""

/-- Modelled from the spec: the serde_json string rendering of the test
request recorded as request_payload; kept as an abstract canonical
rendering. -/
def serializeTestRequest (r : TestConnectionRequest) : String :=
  "headers=" ++ (match r.headers with
    | some h => renderPairs h
    | none => "null")
  ++ "|query=" ++ (match r.query_params with
    | some q => renderPairs q
    | none => "null")
  ++ "|path=" ++ (match r.path_params with
    | some p => renderPairs p
    | none => "null")
  ++ "|body=" ++ (match r.body with
    | some b => b.raw
    | none => "null")

/-- Meta block of the test response. -/
structure Meta where
  timestamp : Int
  platform : String
  platform_version : String
  connection_definition_id : Id
  connection_key : String
  model_name : String
  action : String
deriving DecidableEq, Repr

/-- TestConnectionResponse: upstream code, persisted status, meta and the
upstream textual body. -/
structure TestConnectionResponse where
  code : Nat
  status : TestConnection
  meta : Meta
  response : String
deriving DecidableEq, Repr

/-- test_connection_model_definition: resolve the connection under tenant
scope, select the CMD by id with active false and deleted false, fetch the
secret, dispatch (both passed in as outcomes of the external calls), build
the TestConnection status from the upstream status code, persist it on the
CMD via update_one and answer with the upstream textual body. Returns the
outcome paired with the post-state of the CMD store. -/
def test_connection_model_definition (access : EventAccess) (id : Id)
    (payload : TestConnectionPayload) (connections : List Connection)
    (cmds : List ConnectionModelDefinition)
    (secret : Except PicaErr JsonVal) (exec : Except PicaErr ExecResult)
    (now : Int) :
    Except PicaErr (TestConnectionResponse × List ConnectionModelDefinition) :=
  match connections.find? (fun c => c.key == payload.connection_key
      && c.owner_buildable_id == access.ownership.id && !c.deleted) with
  | none => .error (.notFound ("Connection with key " ++ payload.connection_key
      ++ " not found"))
  | some connection =>
    match cmds.find? (fun m => m.id == id && !m.record_metadata.active
        && !m.record_metadata.deleted) with
    | none => .error (.notFound "Inactive Connection Model Definition Record")
    | some cmd =>
      match secret with
      | .error e => .error e
      | .ok _ =>
        let request_string := serializeTestRequest payload.request
        match exec with
        | .error e => .error e
        | .ok result =>
          match result.body with
          | none => .error (.unknownErr "Could not get text from test connection")
          | some response_body =>
            let status : TestConnection :=
              if isSuccessCode result.status then
                ⟨now, .success response_body request_string⟩
              else
                ⟨now, .failure response_body request_string⟩
            let cmds2 := cmds.map (fun r => if r.id == cmd.id then
                { r with test_connection_status := status } else r)
            .ok ({ code := result.status
                   status := status
                   response := response_body
                   meta := { timestamp := now
                             platform := connection.platform
                             platform_version := connection.platform_version
                             connection_definition_id :=
                               cmd.connection_definition_id
                             connection_key := connection.key
                             model_name := cmd.model_name
                             action := cmd.action } }, cmds2)

/-- C7: the test handler selects the CMD with the filter id, active false,
deleted false and fails not_found when no such record exists; on dispatch it
persists testConnectionStatus on that CMD, Success with the response and the
request payload exactly when the upstream status is a success code and
Failure otherwise, and the handler response carries the upstream textual
body in both cases. -/
theorem C7_test_connection (access : EventAccess) (id : Id)
    (payload : TestConnectionPayload) (connections : List Connection)
    (cmds : List ConnectionModelDefinition) (secret : Except PicaErr JsonVal)
    (exec : Except PicaErr ExecResult) (now : Int) :
    (∀ conn, connections.find? (fun c => c.key == payload.connection_key
        && c.owner_buildable_id == access.ownership.id && !c.deleted) =
          some conn →
      cmds.find? (fun m => m.id == id && !m.record_metadata.active
        && !m.record_metadata.deleted) = none →
      test_connection_model_definition access id payload connections cmds
          secret exec now =
        .error (.notFound "Inactive Connection Model Definition Record")) ∧
    (∀ conn cmd s result body,
      connections.find? (fun c => c.key == payload.connection_key
        && c.owner_buildable_id == access.ownership.id && !c.deleted) =
          some conn →
      cmds.find? (fun m => m.id == id && !m.record_metadata.active
        && !m.record_metadata.deleted) = some cmd →
      secret = .ok s → exec = .ok result → result.body = some body →
      test_connection_model_definition access id payload connections cmds
          secret exec now =
        .ok ({ code := result.status
               status := if isSuccessCode result.status then
                   ⟨now, .success body (serializeTestRequest payload.request)⟩
                 else
                   ⟨now, .failure body (serializeTestRequest payload.request)⟩
               response := body
               meta := { timestamp := now
                         platform := conn.platform
                         platform_version := conn.platform_version
                         connection_definition_id := cmd.connection_definition_id
                         connection_key := conn.key
                         model_name := cmd.model_name
                         action := cmd.action } },
          cmds.map (fun r => if r.id == cmd.id then
            { r with test_connection_status :=
                if isSuccessCode result.status then
                  ⟨now, .success body (serializeTestRequest payload.request)⟩
                else
                  ⟨now, .failure body (serializeTestRequest payload.request)⟩ }
            else r))) := by
  constructor
  · intro conn hconn hcmd
    unfold test_connection_model_definition
    rw [hconn, hcmd]
  · intro conn cmd s result body hconn hcmd hsec hexec hbody
    unfold test_connection_model_definition
    rw [hconn, hcmd, hsec, hexec]
    by_cases hs : isSuccessCode result.status <;> simp [hs, hbody]

/-- Sample inactive CMD exercised by the test handler. -/
def sampleInactiveCMD : ConnectionModelDefinition :=
  { sampleCMD with
    id := "cmd-2"
    record_metadata := { RecordMetadata.init with active := false } }

/-- C7 witness: a concrete test run against an inactive CMD with a 200
upstream persists a Success status carrying the body pong and echoes pong. -/
theorem C7_test_connection_witness :
    test_connection_model_definition sampleAccess "cmd-2"
        ⟨"ck-1", ⟨none, none, none, none⟩⟩ [sampleConnection]
        [sampleInactiveCMD] (.ok ⟨"{}"⟩) (.ok ⟨200, [], some "pong"⟩) 5 =
      .ok ({ code := 200
             status := if isSuccessCode 200 then
                 ⟨5, .success "pong"
                   (serializeTestRequest ⟨none, none, none, none⟩)⟩
               else
                 ⟨5, .failure "pong"
                   (serializeTestRequest ⟨none, none, none, none⟩)⟩
             response := "pong"
             meta := { timestamp := 5
                       platform := sampleConnection.platform
                       platform_version := sampleConnection.platform_version
                       connection_definition_id :=
                         sampleInactiveCMD.connection_definition_id
                       connection_key := sampleConnection.key
                       model_name := sampleInactiveCMD.model_name
                       action := sampleInactiveCMD.action } },
        [sampleInactiveCMD].map (fun r => if r.id == sampleInactiveCMD.id then
          { r with test_connection_status :=
              if isSuccessCode 200 then
                ⟨5, .success "pong"
                  (serializeTestRequest ⟨none, none, none, none⟩)⟩
              else
                ⟨5, .failure "pong"
                  (serializeTestRequest ⟨none, none, none, none⟩)⟩ }
          else r)) :=
  (C7_test_connection sampleAccess "cmd-2" ⟨"ck-1", ⟨none, none, none, none⟩⟩
    [sampleConnection] [sampleInactiveCMD] (.ok ⟨"{}"⟩)
    (.ok ⟨200, [], some "pong"⟩) 5).2 sampleConnection sampleInactiveCMD
    ⟨"{}"⟩ ⟨200, [], some "pong"⟩ "pong" (by decide) (by decide) rfl rfl rfl

end Gateway
